import Mathlib

/-!
Shallow embedding of the vehicle price-estimation engine
(`backend/price_service.py`) and proofs about it.

Conventions:
* Python floats are modelled as exact rationals (`ℚ`).
* Python `None` for an optional string / int argument is `Option.none`.
* Python dictionaries from the static reference tables are association
  lists in source order (Python dicts preserve insertion order).
* Code paths that raise (`AttributeError` on `None.lower()`, `ValueError`
  on `min(())`) are modelled with `Except.error`.
* `round(x, n)` is round-half-to-even on `ℚ`, mirroring the documented
  semantics of Python's `round`.
-/

/-! ## Python string primitives (ASCII), modelled over `List Char` -/

/-- Python `str.lower()`. -/
def pyLower (s : String) : String := String.mk (s.data.map Char.toLower)

/-- Python `str.upper()`. -/
def pyUpper (s : String) : String := String.mk (s.data.map Char.toUpper)

/-- Python `str.strip()`: drop whitespace from both ends. -/
def pyStrip (s : String) : String :=
  String.mk (((s.data.dropWhile Char.isWhitespace).reverse.dropWhile
    Char.isWhitespace).reverse)

/-- Helper for `pyTitle`: the boolean records whether the previous
character was alphabetic. -/
def pyTitleGo : List Char → Bool → List Char
  | [], _ => []
  | c :: cs, prevAlpha =>
    (if c.isAlpha then (if prevAlpha then c.toLower else c.toUpper) else c)
      :: pyTitleGo cs c.isAlpha

/-- Python `str.title()`: a letter not preceded by a letter is uppercased,
other letters are lowercased. -/
def pyTitle (s : String) : String := String.mk (pyTitleGo s.data false)

/-- Does the pattern occur at the head of the list? -/
def listLeads : List Char → List Char → Bool
  | [], _ => true
  | _ :: _, [] => false
  | p :: ps, c :: cs => p == c && listLeads ps cs

/-- Does the pattern occur (contiguously) anywhere in the list? -/
def listHas (p : List Char) : List Char → Bool
  | [] => p.isEmpty
  | c :: cs => listLeads p (c :: cs) || listHas p cs

/-- Python's substring test `p in s`. -/
def strIn (p s : String) : Bool := listHas p.data s.data

/-! ## Python rounding -/

/-- Round to the nearest integer, ties to even (Python `round`). -/
def rhe (x : ℚ) : ℤ :=
  let f := ⌊x⌋
  if x - f < 1/2 then f
  else if 1/2 < x - f then f + 1
  else if Even f then f else f + 1

/-- Python `round(x, -2)`: round to the nearest multiple of 100. -/
def pyRound100 (x : ℚ) : ℚ := (rhe (x / 100) : ℚ) * 100

/-- Python `round(x, n)` for `n ≥ 0` digits. -/
def pyRoundTo (n : ℕ) (x : ℚ) : ℚ := (rhe (x * 10 ^ n) : ℚ) / 10 ^ n

/-- Python `min(l, key=f)` on a non-empty collection `x :: l`: the first
element attaining the minimal key. -/
def pyMin (f : ℤ → ℤ) (x : ℤ) (l : List ℤ) : ℤ :=
  l.foldl (fun b y => if f y < f b then y else b) x

/-! ## Reference MSRP database (`MSRP_DATABASE` in the source) -/

abbrev YearTable := List (ℤ × ℚ)
abbrev MakeTable := List (String × YearTable)

def MSRP_DATABASE : List (String × MakeTable) := [
  ("TOYOTA", [
    ("Camry",      [(2024, 28855), (2023, 27415), (2022, 26420), (2021, 25965), (2020, 25250),
                    (2019, 25250), (2018, 24380), (2017, 24380), (2016, 23905), (2015, 23795),
                    (2014, 23235), (2013, 23070), (2012, 22975), (2011, 22745), (2010, 21800)]),
    ("Corolla",    [(2024, 22995), (2023, 22195), (2022, 21145), (2021, 20425), (2020, 20430),
                    (2019, 19990), (2018, 19510), (2017, 19365), (2016, 18335), (2015, 17560),
                    (2014, 17610), (2013, 17230), (2012, 17230), (2011, 16230), (2010, 16230)]),
    ("RAV4",       [(2024, 30535), (2023, 29790), (2022, 28275), (2021, 27740), (2020, 27740),
                    (2019, 26545), (2018, 26150), (2017, 25350), (2016, 25250), (2015, 25035),
                    (2014, 24410), (2013, 24530), (2012, 23460), (2011, 23260), (2010, 22715)]),
    ("Highlander", [(2024, 39520), (2023, 38620), (2022, 36620), (2021, 36620), (2020, 35720),
                    (2019, 35540), (2018, 32248), (2017, 31930), (2016, 31590), (2015, 30690)]),
    ("Tacoma",     [(2024, 31500), (2023, 29515), (2022, 28410), (2021, 27595), (2020, 27395),
                    (2019, 26950), (2018, 26150), (2017, 25300), (2016, 24300), (2015, 23975)])]),
  ("HONDA", [
    ("Civic",      [(2024, 24950), (2023, 24650), (2022, 23645), (2021, 22695), (2020, 21650),
                    (2019, 21250), (2018, 20650), (2017, 20440), (2016, 19975), (2015, 19490),
                    (2014, 19190), (2013, 19155), (2012, 18905), (2011, 18655), (2010, 16355)]),
    ("Accord",     [(2024, 29610), (2023, 28890), (2022, 27615), (2021, 26520), (2020, 25970),
                    (2019, 24615), (2018, 24445), (2017, 23980), (2016, 23555), (2015, 23225),
                    (2014, 22920), (2013, 22670), (2012, 22580), (2011, 22280), (2010, 22005)]),
    ("CR-V",       [(2024, 31450), (2023, 31110), (2022, 29615), (2021, 27950), (2020, 26795),
                    (2019, 25895), (2018, 25350), (2017, 25245), (2016, 24845), (2015, 24595),
                    (2014, 24150), (2013, 23875), (2012, 23595), (2011, 23195), (2010, 22320)])]),
  ("FORD", [
    ("F-150",      [(2024, 36965), (2023, 35575), (2022, 32920), (2021, 30635), (2020, 29290),
                    (2019, 29250), (2018, 28675), (2017, 28150), (2016, 27705), (2015, 27285),
                    (2014, 25800), (2013, 25520), (2012, 24700), (2011, 23750), (2010, 22840)]),
    ("Escape",     [(2024, 30495), (2023, 29600), (2022, 28475), (2021, 27755), (2020, 26080),
                    (2019, 25200), (2018, 24645), (2017, 24645), (2016, 24145), (2015, 24075)]),
    ("Explorer",   [(2024, 38710), (2023, 37645), (2022, 35745), (2021, 33745), (2020, 33860),
                    (2019, 33860), (2018, 32565), (2017, 32575), (2016, 32315), (2015, 31595)]),
    ("Mustang",    [(2024, 32515), (2023, 30920), (2022, 28545), (2021, 27770), (2020, 27155),
                    (2019, 26670), (2018, 26185), (2017, 26185), (2016, 25185), (2015, 24425)])]),
  ("CHEVROLET", [
    ("Silverado",  [(2024, 37645), (2023, 36300), (2022, 33500), (2021, 30195), (2020, 29795),
                    (2019, 29795), (2018, 29285), (2017, 28985), (2016, 28100), (2015, 27575)]),
    ("Equinox",    [(2024, 30495), (2023, 28600), (2022, 28100), (2021, 27400), (2020, 25800),
                    (2019, 25200), (2018, 24575), (2017, 24575), (2016, 23400), (2015, 23100)]),
    ("Malibu",     [(2024, 26200), (2023, 25100), (2022, 24100), (2021, 23900), (2020, 22590),
                    (2019, 22555), (2018, 22555), (2017, 22555), (2016, 22500), (2015, 22465)])]),
  ("HYUNDAI", [
    ("Elantra",    [(2024, 22865), (2023, 22065), (2022, 20665), (2021, 20665), (2020, 20245),
                    (2019, 18185), (2018, 17785), (2017, 17785), (2016, 17785), (2015, 18060)]),
    ("Tucson",     [(2024, 30550), (2023, 29550), (2022, 27750), (2021, 25350), (2020, 24450),
                    (2019, 24300), (2018, 23700), (2017, 23600), (2016, 23595), (2015, 23495)]),
    ("Sonata",     [(2024, 28990), (2023, 28690), (2022, 24150), (2021, 24150), (2020, 23600),
                    (2019, 23100), (2018, 22935), (2017, 22935), (2016, 22635), (2015, 22100)])]),
  ("NISSAN", [
    ("Altima",     [(2024, 28340), (2023, 27510), (2022, 25290), (2021, 25290), (2020, 24650),
                    (2019, 24650), (2018, 24150), (2017, 24025), (2016, 23775), (2015, 23365)]),
    ("Rogue",      [(2024, 30630), (2023, 29850), (2022, 28390), (2021, 27530), (2020, 27110),
                    (2019, 26260), (2018, 25820), (2017, 25550), (2016, 24960), (2015, 24220)]),
    ("Sentra",     [(2024, 21740), (2023, 20810), (2022, 20050), (2021, 19990), (2020, 19310),
                    (2019, 19090), (2018, 17790), (2017, 17790), (2016, 17600), (2015, 17260)])]),
  ("BMW", [
    ("3 Series",   [(2024, 44450), (2023, 43800), (2022, 42800), (2021, 41950), (2020, 41250),
                    (2019, 40250), (2018, 34950), (2017, 34750), (2016, 34350), (2015, 33950)]),
    ("5 Series",   [(2024, 57400), (2023, 56000), (2022, 55400), (2021, 54200), (2020, 53400),
                    (2019, 53400), (2018, 52650), (2017, 52195), (2016, 51400), (2015, 51200)]),
    ("X3",         [(2024, 47500), (2023, 46200), (2022, 44950), (2021, 43700), (2020, 42950),
                    (2019, 42650), (2018, 42650), (2017, 39950), (2016, 39950), (2015, 39950)])]),
  ("MERCEDES-BENZ", [
    ("C-Class",    [(2024, 46250), (2023, 45250), (2022, 44600), (2021, 43250), (2020, 42500),
                    (2019, 41400), (2018, 41400), (2017, 40250), (2016, 39500), (2015, 39400)]),
    ("E-Class",    [(2024, 58050), (2023, 56750), (2022, 55300), (2021, 54250), (2020, 54050),
                    (2019, 53500), (2018, 53500), (2017, 53075), (2016, 52650), (2015, 52325)])]),
  ("TESLA", [
    ("Model 3",    [(2024, 38990), (2023, 40240), (2022, 46990), (2021, 39990), (2020, 37990),
                    (2019, 38990), (2018, 35000)]),
    ("Model Y",    [(2024, 44990), (2023, 47490), (2022, 62990), (2021, 53990), (2020, 49990)])])]

/-- Category-based MSRP fallback table, in source insertion order. -/
def CATEGORY_MSRP : List (String × ℚ) := [
  ("sedan",       28000),
  ("suv",         35000),
  ("truck",       38000),
  ("coupe",       32000),
  ("hatchback",   24000),
  ("van",         35000),
  ("convertible", 38000),
  ("wagon",       30000),
  ("default",     30000)]

/-! ## Depreciation, mileage, condition adjusters -/

/-- Year-by-year depreciation rates for years 1-10. -/
def annual_rates : List ℚ := [0.20, 0.15, 0.10, 0.10, 0.10, 0.07, 0.07, 0.05, 0.05, 0.05]

/-- `_get_depreciation_factor`: cumulative retention factor from vehicle age. -/
def get_depreciation_factor (vehicle_age : ℤ) : ℚ :=
  if vehicle_age ≤ 0 then 1
  else
    let remaining :=
      (annual_rates.take (min vehicle_age.toNat annual_rates.length)).foldl
        (fun r rate => r * (1 - rate)) 1
    let remaining :=
      if (annual_rates.length : ℤ) < vehicle_age then
        remaining * (1 - 0.03 : ℚ) ^ (vehicle_age - annual_rates.length).toNat
      else remaining
    max remaining 0.05

/-- `_mileage_adjustment`: multiplier from mileage deviation versus the
12,000 miles/year expectation, clamped to ±15%. -/
def mileage_adjustment (mileage vehicle_age : ℤ) : ℚ :=
  let age := if vehicle_age ≤ 0 then 1 else vehicle_age
  let expected_mileage := age * 12000
  let mileage_diff : ℚ := ((mileage - expected_mileage : ℤ) : ℚ)
  let adjustment := -(mileage_diff / 10000) * 0.03
  1 + max (-0.15 : ℚ) (min (0.15 : ℚ) adjustment)

/-- `_condition_multiplier`: qualitative condition tier multiplier,
defaulting to 1.0 for unrecognized values. -/
def condition_multiplier (condition : String) : ℚ :=
  (List.lookup (pyLower condition)
    [("excellent", 1.10), ("good", 1.00), ("fair", 0.88), ("poor", 0.72)]).getD 1.00

/-! ## MSRP lookup (`_find_msrp`) -/

/-- `make.upper().strip() if make else ""`. -/
def makeKey (make : Option String) : String :=
  match make with
  | some s => if s = "" then "" else pyStrip (pyUpper s)
  | none => ""

/-- `model.strip().title() if model else ""`. -/
def modelTitle (model : Option String) : String :=
  match model with
  | some s => if s = "" then "" else pyTitle (pyStrip s)
  | none => ""

/-- `MSRP_DATABASE.get(make_upper, {})`. -/
def makeData (make : Option String) : MakeTable :=
  (List.lookup (makeKey make) MSRP_DATABASE).getD []

/-- The fuzzy-match test of the source:
`db_model.lower() in model.lower() or model.lower() in db_model.lower()`. -/
def fuzzyCond (ms dbModel : String) : Bool :=
  strIn (pyLower dbModel) (pyLower ms) || strIn (pyLower ms) (pyLower dbModel)

/-- `_find_msrp`: returns `(msrp, source)`.  `Except.error` models the
uncaught Python exceptions (`model.lower()` on `None`, `min` of an empty
key set). -/
def find_msrp (make model : Option String) (year : ℤ) :
    Except String (Option ℚ × String) :=
  let make_data := makeData make
  let model_data := (List.lookup (modelTitle model) make_data).getD []
  match List.lookup year model_data with
  | some p => .ok (some p, "msrp_database")
  | none =>
    match model_data with
    | (y0, _) :: rest =>
      let closest_year := pyMin (fun y => |y - year|) y0 (rest.map Prod.fst)
      let base_msrp := (List.lookup closest_year model_data).getD 0
      let adjusted := base_msrp * (1.02 : ℚ) ^ (year - closest_year)
      .ok (some adjusted, "msrp_database_extrapolated_from_" ++ toString closest_year)
    | [] =>
      match model with
      | none =>
        if make_data.isEmpty then .ok (none, "not_found") else .error "AttributeError"
      | some ms =>
        match make_data.find? (fun e => fuzzyCond ms e.1) with
        | some (db_model, data) =>
          match List.lookup year data with
          | some p => .ok (some p, "msrp_database_fuzzy_" ++ db_model)
          | none =>
            match data with
            | (y0, _) :: rest =>
              let closest_year := pyMin (fun y => |y - year|) y0 (rest.map Prod.fst)
              let adjusted :=
                ((List.lookup closest_year data).getD 0) * (1.02 : ℚ) ^ (year - closest_year)
              .ok (some adjusted, "msrp_database_fuzzy_" ++ db_model ++ "_extrapolated")
            | [] => .error "ValueError"
        | none => .ok (none, "not_found")

/-- `_estimate_msrp_by_category`: body-class keyword fallback. -/
def estimate_msrp_by_category (body_class : Option String) : ℚ :=
  match body_class with
  | none => (List.lookup "default" CATEGORY_MSRP).getD 0
  | some bc =>
    if bc = "" then (List.lookup "default" CATEGORY_MSRP).getD 0
    else
      match CATEGORY_MSRP.find? (fun e => strIn e.1 (pyLower bc)) with
      | some e => e.2
      | none => (List.lookup "default" CATEGORY_MSRP).getD 0

/-! ## Main estimation function (`estimate_price`) -/

/-- The estimate returned by `estimate_price` (the `notes` rationale
strings of the Python dict are not modelled). -/
structure PriceEstimate where
  make : Option String
  model : Option String
  year : ℤ
  mileage : Option ℤ
  condition : Option String
  low_price : ℚ
  market_price : ℚ
  high_price : ℚ
  msrp : ℚ
  confidence : ℚ
  source : String
  deriving Repr, DecidableEq

/-- Python truthiness of the `msrp` value (`if msrp:`): `None` and `0` are
falsy. -/
def msrpTruthy : Option ℚ → Bool
  | some m => m != 0
  | none => false

/-- `estimate_price`: the current calendar year (read from the ambient
clock in the source) is passed explicitly. -/
def estimate_price (current_year : ℤ) (make model : Option String) (year : ℤ)
    (mileage : Option ℤ) (condition : Option String) (body_class : Option String) :
    Except String PriceEstimate :=
  let d := current_year - year
  let vehicle_age := if d < 0 then 0 else d
  match find_msrp make model year with
  | .error e => .error e
  | .ok (msrp0, source0) =>
    match condition with
    | none => .error "AttributeError"
    | some cond =>
      let msrp :=
        if msrpTruthy msrp0 then msrp0.getD 0
        else estimate_msrp_by_category body_class
      let confidence : ℚ :=
        if msrpTruthy msrp0 then
          if strIn "extrapolated" source0 then 0.65
          else if strIn "fuzzy" source0 then 0.55
          else 0.80
        else 0.35
      let source :=
        if msrpTruthy msrp0 then source0 else "category_estimate"
      let dep_factor := get_depreciation_factor vehicle_age
      let base_value := msrp * dep_factor
      let mile_adj : ℚ :=
        match mileage with
        | some mi => if mi != 0 && 0 < mi then mileage_adjustment mi vehicle_age else 1
        | none => 1
      let base_value := base_value * mile_adj
      let cond_mult := condition_multiplier cond
      let base_value := base_value * cond_mult
      let market_price0 := pyRound100 base_value
      let low_price0 := pyRound100 (market_price0 * 0.88)
      let high_price0 := pyRound100 (market_price0 * 1.12)
      .ok {
        make := make, model := model, year := year,
        mileage := mileage, condition := condition,
        low_price := max low_price0 300,
        market_price := max market_price0 500,
        high_price := max high_price0 700,
        msrp := pyRoundTo 0 msrp,
        confidence := pyRoundTo 2 confidence,
        source := source }

/-- Steps 1-4 of `estimate_price` (reference price, depreciation, mileage,
condition): the adjusted base value before rounding and flooring. -/
def adjusted_base (current_year : ℤ) (make model : Option String) (year : ℤ)
    (mileage : Option ℤ) (condition : Option String) (body_class : Option String) :
    Except String ℚ :=
  let d := current_year - year
  let vehicle_age := if d < 0 then 0 else d
  match find_msrp make model year with
  | .error e => .error e
  | .ok (msrp0, _source0) =>
    match condition with
    | none => .error "AttributeError"
    | some cond =>
      let msrp :=
        if msrpTruthy msrp0 then msrp0.getD 0
        else estimate_msrp_by_category body_class
      let mile_adj : ℚ :=
        match mileage with
        | some mi => if mi != 0 && 0 < mi then mileage_adjustment mi vehicle_age else 1
        | none => 1
      .ok (msrp * get_depreciation_factor vehicle_age * mile_adj *
        condition_multiplier cond)

/-! ## Contract comparison (`compare_contract_to_market`) -/

/-- The value found under `finance_amount` in the extracted contract data:
absent, a number (int or float), or a string. -/
inductive FinanceVal where
  | missing
  | num (q : ℚ)
  | str (s : String)
  deriving Repr, DecidableEq

/-- Python truthiness of the finance amount: `None`, `0` and `""` are falsy. -/
def finTruthy : FinanceVal → Bool
  | .missing => false
  | .num q => q != 0
  | .str s => s != ""

/-- Digits of an ASCII decimal literal accumulated into a natural number. -/
def digitsVal (l : List Char) : ℕ :=
  l.foldl (fun a c => a * 10 + (c.toNat - 48)) 0

/-- Python `float(s)` on plain decimal literals (optional sign, digits,
optional fraction); other builtin forms (exponents, inf/nan) are not
modelled and parse as failures. -/
def parseFloat (s : String) : Option ℚ :=
  let core : List Char → Option ℚ := fun l =>
    let intPart := l.takeWhile Char.isDigit
    let rest := l.dropWhile Char.isDigit
    match rest with
    | [] => if intPart.isEmpty then none else some (digitsVal intPart)
    | '.' :: rest2 =>
      let fracPart := rest2.takeWhile Char.isDigit
      let rest3 := rest2.dropWhile Char.isDigit
      if rest3.isEmpty && !(intPart.isEmpty && fracPart.isEmpty) then
        some ((digitsVal (intPart ++ fracPart) : ℚ) / 10 ^ fracPart.length)
      else none
    | _ => none
  match (pyStrip s).data with
  | '-' :: l => (core l).map Neg.neg
  | '+' :: l => core l
  | l => core l

/-- Python `float(x)` on the finance value; `Option.none` models the
`ValueError` / `TypeError` caught by the source. -/
def pyFloat (v : FinanceVal) : Option ℚ :=
  match v with
  | .missing => none
  | .num q => some q
  | .str s => parseFloat s

/-- Truthiness of the optional string arguments (`make`, `model`). -/
def optStrTruthy : Option String → Bool
  | some s => s != ""
  | none => false

/-- Truthiness of the optional int argument (`year`). -/
def optIntTruthy : Option ℤ → Bool
  | some n => n != 0
  | none => false

/-- The pricing-analysis fields of the comparison dict (the formatted
`price_range` and `message` strings are not modelled). -/
structure MarketComparison where
  finance_amount : ℚ
  market_price : ℚ
  high_price : ℚ
  deviation_percent : ℚ
  confidence : ℚ
  assessment : String
  deriving Repr, DecidableEq

/-- Result of `compare_contract_to_market`: either a soft failure with a
reason, or the full comparison. -/
inductive CompareResult where
  | unavailable (reason : String)
  | available (c : MarketComparison)
  deriving Repr, DecidableEq

/-- `compare_contract_to_market`. -/
def compare_contract_to_market (current_year : ℤ) (finance_amount : FinanceVal)
    (make model : Option String) (year : Option ℤ) :
    Except String CompareResult :=
  if !(finTruthy finance_amount) ||
      !(optStrTruthy make && optStrTruthy model && optIntTruthy year) then
    .ok (.unavailable "Insufficient data for price comparison")
  else
    match pyFloat finance_amount with
    | none => .ok (.unavailable "Invalid finance amount")
    | some famt =>
      match estimate_price current_year make model (year.getD 0) none
          (some "good") none with
      | .error e => .error e
      | .ok est =>
        let market_price := est.market_price
        let deviation_pct := (famt - market_price) / market_price * 100
        let assessment :=
          if deviation_pct > 15 then "overpriced"
          else if deviation_pct > 5 then "slightly_above_market"
          else if deviation_pct < -10 then "good_deal"
          else "fair"
        .ok (.available {
          finance_amount := famt,
          market_price := market_price,
          high_price := est.high_price,
          deviation_percent := pyRoundTo 1 deviation_pct,
          confidence := est.confidence,
          assessment := assessment })

set_option maxRecDepth 8000

/-! ## Rounding lemmas -/

theorem le_rhe (x : ℚ) : x - 1/2 ≤ (rhe x : ℚ) := by
  rw [rhe]
  have h1 : ((⌊x⌋ : ℤ) : ℚ) ≤ x := Int.floor_le x
  have h2 : x < (⌊x⌋ : ℚ) + 1 := Int.lt_floor_add_one x
  split_ifs <;> push_cast <;> linarith

theorem rhe_le (x : ℚ) : (rhe x : ℚ) ≤ x + 1/2 := by
  rw [rhe]
  have h1 : ((⌊x⌋ : ℤ) : ℚ) ≤ x := Int.floor_le x
  have h2 : x < (⌊x⌋ : ℚ) + 1 := Int.lt_floor_add_one x
  split_ifs <;> push_cast <;> linarith

theorem rhe_nonneg {x : ℚ} (h : 0 ≤ x) : 0 ≤ rhe x := by
  have h1 := le_rhe x
  have h2 : (-1 : ℚ) < (rhe x : ℚ) := by linarith
  have h3 : (-1 : ℤ) < rhe x := by exact_mod_cast h2
  omega

theorem round88_le {k : ℤ} (hk : 0 ≤ k) :
    pyRound100 ((k : ℚ) * 100 * 0.88) ≤ (k : ℚ) * 100 := by
  rw [pyRound100, show ((k:ℚ) * 100 * 0.88) / 100 = 0.88 * k by ring]
  have hk' : (0 : ℚ) ≤ (k : ℚ) := by exact_mod_cast hk
  have h2 := rhe_le (0.88 * (k : ℚ))
  have h3 : (rhe (0.88 * (k:ℚ)) : ℚ) < (k : ℚ) + 1 := by linarith
  have h4 : rhe (0.88 * (k:ℚ)) < k + 1 := by exact_mod_cast h3
  have h5 : (rhe (0.88 * (k:ℚ)) : ℚ) ≤ (k : ℚ) := by exact_mod_cast (by omega : rhe (0.88 * (k:ℚ)) ≤ k)
  linarith

theorem round112_ge {k : ℤ} (hk : 0 ≤ k) :
    (k : ℚ) * 100 ≤ pyRound100 ((k : ℚ) * 100 * 1.12) := by
  rw [pyRound100, show ((k:ℚ) * 100 * 1.12) / 100 = 1.12 * k by ring]
  have hk' : (0 : ℚ) ≤ (k : ℚ) := by exact_mod_cast hk
  have h2 := le_rhe (1.12 * (k : ℚ))
  have h3 : ((k : ℚ)) - 1 < (rhe (1.12 * (k:ℚ)) : ℚ) := by linarith
  have h4 : k - 1 < rhe (1.12 * (k:ℚ)) := by exact_mod_cast h3
  have h5 : (k : ℚ) ≤ (rhe (1.12 * (k:ℚ)) : ℚ) := by exact_mod_cast (by omega : k ≤ rhe (1.12 * (k:ℚ)))
  linarith

/-! ## List lookup lemmas -/

theorem lookup_mem {α β : Type} [BEq α] [LawfulBEq α] {a : α} {b : β} {l : List (α × β)}
    (h : List.lookup a l = some b) : (a, b) ∈ l := by
  obtain ⟨l1, l2, rfl, -⟩ := List.lookup_eq_some_iff.mp h
  simp

theorem lookup_of_mem_keys {α β : Type} [BEq α] [LawfulBEq α] {a : α} {l : List (α × β)}
    (h : a ∈ l.map Prod.fst) : ∃ b, List.lookup a l = some b := by
  induction l with
  | nil => simp at h
  | cons p t ih =>
    by_cases hpa : a = p.1
    · exact ⟨p.2, by simp [List.lookup, hpa]⟩
    · have hf : (a == p.1) = false := beq_eq_false_iff_ne.mpr hpa
      have hm : a ∈ t.map Prod.fst := by
        rcases List.mem_map.mp h with ⟨q, hq, rfl⟩
        rcases List.mem_cons.mp hq with rfl | hq2
        · exact absurd rfl hpa
        · exact List.mem_map.mpr ⟨q, hq2, rfl⟩
      obtain ⟨b, hb⟩ := ih hm
      exact ⟨b, by simp [List.lookup, hf, hb]⟩

theorem not_mem_keys_of_lookup_none {α β : Type} [BEq α] [LawfulBEq α] {a : α}
    {l : List (α × β)} (h : List.lookup a l = none) : a ∉ l.map Prod.fst := by
  intro hmem
  obtain ⟨b, hb⟩ := lookup_of_mem_keys hmem
  rw [h] at hb
  exact Option.noConfusion hb

/-! ## pyMin lemmas -/

theorem pyMin_mem (f : ℤ → ℤ) (x : ℤ) (l : List ℤ) : pyMin f x l ∈ x :: l := by
  induction l generalizing x with
  | nil => simp [pyMin]
  | cons y t ih =>
    rw [pyMin, List.foldl_cons]
    have h := ih (if f y < f x then y else x)
    rw [pyMin] at h
    rcases List.mem_cons.mp h with h1 | h1
    · rw [h1]
      split_ifs <;> simp
    · exact List.mem_cons_of_mem _ (List.mem_cons_of_mem _ h1)

theorem pyMin_le (f : ℤ → ℤ) (x : ℤ) (l : List ℤ) :
    ∀ y ∈ x :: l, f (pyMin f x l) ≤ f y := by
  induction l generalizing x with
  | nil =>
    intro y hy
    rcases List.mem_cons.mp hy with rfl | h1
    · simp [pyMin]
    · simp at h1
  | cons z t ih =>
    intro y hy
    have hkey : pyMin f x (z :: t) = pyMin f (if f z < f x then z else x) t := by
      rw [pyMin, pyMin, List.foldl_cons]
    rcases List.mem_cons.mp hy with rfl | hy2
    · rw [hkey]
      split_ifs with hzx
      · exact le_trans (ih z z (List.mem_cons_self _ _)) (le_of_lt hzx)
      · exact ih y y (List.mem_cons_self _ _)
    · rcases List.mem_cons.mp hy2 with rfl | hy3
      · rw [hkey]
        split_ifs with hzx
        · exact ih y y (List.mem_cons_self _ _)
        · exact le_trans (ih x x (List.mem_cons_self _ _)) (not_lt.mp hzx)
      · rw [hkey]
        split_ifs with hzx
        · exact ih z y (List.mem_cons_of_mem _ hy3)
        · exact ih x y (List.mem_cons_of_mem _ hy3)

/-! ## Substring lemmas -/

theorem listLeads_append {p l : List Char} (t : List Char) (h : listLeads p l = true) :
    listLeads p (l ++ t) = true := by
  induction p generalizing l with
  | nil => rfl
  | cons c ps ih =>
    cases l with
    | nil => exact absurd h (by simp [listLeads])
    | cons d ds =>
      rw [listLeads] at h
      rw [List.cons_append, listLeads]
      simp only [Bool.and_eq_true] at h ⊢
      exact ⟨h.1, ih h.2⟩

theorem listHas_nil (l : List Char) : listHas [] l = true := by
  cases l <;> rfl

theorem listHas_append_left {p a : List Char} (b : List Char)
    (h : listHas p a = true) : listHas p (a ++ b) = true := by
  induction a with
  | nil =>
    rw [listHas] at h
    rw [List.isEmpty_iff] at h
    rw [h, List.nil_append]
    exact listHas_nil b
  | cons c cs ih =>
    rw [List.cons_append, listHas]
    rw [listHas] at h
    simp only [Bool.or_eq_true] at h ⊢
    rcases h with h1 | h1
    · exact Or.inl (by
        have h2 := listLeads_append b h1
        rwa [List.cons_append] at h2)
    · exact Or.inr (ih h1)

theorem listHas_append_right {p b : List Char} (a : List Char)
    (h : listHas p b = true) : listHas p (a ++ b) = true := by
  induction a with
  | nil => rwa [List.nil_append]
  | cons c cs ih =>
    rw [List.cons_append, listHas]
    simp only [Bool.or_eq_true]
    exact Or.inr ih

theorem strIn_empty (s : String) : strIn "" s = true := listHas_nil s.data

theorem strIn_append_left {p a : String} (b : String) (h : strIn p a = true) :
    strIn p (a ++ b) = true := by
  rw [strIn, String.data_append]
  exact listHas_append_left _ h

theorem strIn_append_right {p b : String} (a : String) (h : strIn p b = true) :
    strIn p (a ++ b) = true := by
  rw [strIn, String.data_append]
  exact listHas_append_right _ h

/-! ## Depreciation-factor machinery -/

/-- Cumulative product of the first `n` annual retention factors. -/
def prodTake (n : ℕ) : ℚ :=
  (annual_rates.take n).foldl (fun r rate => r * (1 - rate)) 1

/-- Retention factor applied when passing from age `n` to age `n + 1`. -/
def depStep (n : ℕ) : ℚ :=
  if h : n < annual_rates.length then 1 - annual_rates.get ⟨n, h⟩ else 1 - 0.03

/-- Cumulative retention at age `m` (over ℕ), as a simple recursion. -/
def G : ℕ → ℚ
  | 0 => 1
  | n + 1 => G n * depStep n

theorem rates_mem_bounds : ∀ r ∈ annual_rates, 0 < r ∧ r < 1 := by
  intro r hr
  simp only [annual_rates, List.mem_cons, List.not_mem_nil, or_false] at hr
  rcases hr with rfl | rfl | rfl | rfl | rfl | rfl | rfl | rfl | rfl | rfl <;>
    constructor <;> norm_num

theorem depStep_pos (n : ℕ) : 0 < depStep n := by
  rw [depStep]
  split_ifs with h
  · have := (rates_mem_bounds _ (List.get_mem annual_rates n h)).2
    linarith
  · norm_num

theorem depStep_le_one (n : ℕ) : depStep n ≤ 1 := by
  rw [depStep]
  split_ifs with h
  · have := (rates_mem_bounds _ (List.get_mem annual_rates n h)).1
    linarith
  · norm_num

theorem G_pos (m : ℕ) : 0 < G m := by
  induction m with
  | zero => norm_num [G]
  | succ n ih => exact mul_pos ih (depStep_pos n)

theorem G_le_one (m : ℕ) : G m ≤ 1 := by
  induction m with
  | zero => norm_num [G]
  | succ n ih =>
    calc G n * depStep n ≤ G n * 1 :=
          mul_le_mul_of_nonneg_left (depStep_le_one n) (le_of_lt (G_pos n))
      _ = G n := mul_one _
      _ ≤ 1 := ih

theorem G_succ_le (m : ℕ) : G (m + 1) ≤ G m := by
  calc G m * depStep m ≤ G m * 1 :=
        mul_le_mul_of_nonneg_left (depStep_le_one m) (le_of_lt (G_pos m))
    _ = G m := mul_one _

theorem G_anti {m n : ℕ} (h : m ≤ n) : G n ≤ G m := by
  induction n with
  | zero => rw [Nat.le_zero.mp h]
  | succ k ih =>
    rcases Nat.lt_or_ge m (k + 1) with h1 | h1
    · exact le_trans (G_succ_le k) (ih (Nat.lt_succ_iff.mp h1))
    · rw [Nat.le_antisymm h h1]

theorem prodTake_succ (n : ℕ) (h : n < annual_rates.length) :
    prodTake (n + 1) = prodTake n * (1 - annual_rates.get ⟨n, h⟩) := by
  rw [prodTake, prodTake, List.take_succ, List.foldl_append,
    List.getElem?_eq_getElem h]
  rfl

theorem G_eq (m : ℕ) :
    G m = if annual_rates.length < m then
      prodTake annual_rates.length * (1 - 0.03 : ℚ) ^ (m - annual_rates.length)
    else prodTake m := by
  induction m with
  | zero => simp [G, prodTake]
  | succ n ih =>
    rw [G, ih]
    by_cases h1 : n < annual_rates.length
    · rw [if_neg (by omega), if_neg (by omega), depStep, dif_pos h1,
        prodTake_succ n h1]
    · have hlen : annual_rates.length ≤ n := Nat.le_of_not_lt h1
      rw [depStep, dif_neg h1]
      by_cases h2 : annual_rates.length < n
      · rw [if_pos h2, if_pos (by omega), mul_assoc, ← pow_succ]
        congr 2
        omega
      · have hn : n = annual_rates.length := by omega
        rw [if_neg h2, if_pos (by omega), hn,
          show annual_rates.length + 1 - annual_rates.length = 1 by omega, pow_one]

theorem dep_eq_G {a : ℤ} (h : 1 ≤ a) :
    get_depreciation_factor a = max (G a.toNat) 0.05 := by
  have hlen : annual_rates.length = 10 := rfl
  simp only [get_depreciation_factor, G_eq, hlen]
  rw [if_neg (by omega : ¬ a ≤ 0)]
  split_ifs with hA hB hB
  · have m1 : min a.toNat 10 = 10 := by omega
    have m2 : (a - ((10 : ℕ) : ℤ)).toNat = a.toNat - 10 := by omega
    rw [m1, m2, prodTake]
  · exact absurd (by omega : (10 : ℕ) < a.toNat) hB
  · exact absurd (by omega : (((10 : ℕ) : ℤ)) < a) hA
  · have m1 : min a.toNat 10 = a.toNat := by omega
    rw [m1, prodTake]

theorem dep_bounds (a : ℤ) :
    (0.05 : ℚ) ≤ get_depreciation_factor a ∧ get_depreciation_factor a ≤ 1 := by
  by_cases h : a ≤ 0
  · rw [get_depreciation_factor, if_pos h]
    norm_num
  · rw [dep_eq_G (by omega)]
    constructor
    · exact le_max_right _ _
    · exact max_le (G_le_one _) (by norm_num)

theorem dep_pos (a : ℤ) : 0 < get_depreciation_factor a :=
  lt_of_lt_of_le (by norm_num) (dep_bounds a).1

theorem dep_of_nonpos {a : ℤ} (h : a ≤ 0) : get_depreciation_factor a = 1 := by
  rw [get_depreciation_factor, if_pos h]

theorem dep_anti {a b : ℤ} (h : a ≤ b) :
    get_depreciation_factor b ≤ get_depreciation_factor a := by
  by_cases hb : b ≤ 0
  · rw [dep_of_nonpos hb, dep_of_nonpos (le_trans h hb)]
  · by_cases ha : a ≤ 0
    · rw [dep_of_nonpos ha]
      exact (dep_bounds b).2
    · rw [dep_eq_G (by omega), dep_eq_G (by omega)]
      have hab : a.toNat ≤ b.toNat := by omega
      exact max_le_max (G_anti hab) (le_refl _)

/-! ## Adjuster lemmas -/

theorem clamp_bounds (t : ℚ) :
    (0.85 : ℚ) ≤ 1 + max (-0.15) (min 0.15 t) ∧
      1 + max (-0.15) (min 0.15 t) ≤ 1.15 := by
  constructor
  · have h := le_max_left (-0.15 : ℚ) (min 0.15 t)
    linarith
  · have h := max_le (show (-0.15 : ℚ) ≤ 0.15 by norm_num) (min_le_left (0.15 : ℚ) t)
    linarith

theorem mileage_adjustment_bounds (m a : ℤ) :
    (0.85 : ℚ) ≤ mileage_adjustment m a ∧ mileage_adjustment m a ≤ 1.15 := by
  simp only [mileage_adjustment]
  exact clamp_bounds _

theorem mileage_adjustment_pos (m a : ℤ) : 0 < mileage_adjustment m a :=
  lt_of_lt_of_le (by norm_num) (mileage_adjustment_bounds m a).1

theorem getD_pos_of_all {l : List (String × ℚ)} {k : String} {d : ℚ}
    (hd : 0 < d) (hall : ∀ p ∈ l, 0 < p.2) : 0 < (List.lookup k l).getD d := by
  rcases h : List.lookup k l with _ | v
  · simpa using hd
  · simpa using hall _ (lookup_mem h)

theorem condition_multiplier_pos (c : String) : 0 < condition_multiplier c := by
  rw [condition_multiplier]
  refine getD_pos_of_all (by norm_num) ?_
  intro p hp
  simp only [List.mem_cons, List.not_mem_nil, or_false] at hp
  rcases hp with rfl | rfl | rfl | rfl <;> norm_num

theorem category_all_pos : ∀ p ∈ CATEGORY_MSRP, 0 < p.2 := by
  intro p hp
  simp only [CATEGORY_MSRP, List.mem_cons, List.not_mem_nil, or_false] at hp
  rcases hp with rfl | rfl | rfl | rfl | rfl | rfl | rfl | rfl | rfl <;> norm_num

theorem estimate_msrp_by_category_pos (bc : Option String) :
    0 < estimate_msrp_by_category bc := by
  have hdef : (0 : ℚ) < (List.lookup "default" CATEGORY_MSRP).getD 0 := by
    rw [show List.lookup "default" CATEGORY_MSRP = some 30000 from rfl]
    norm_num
  rcases bc with _ | s
  · exact hdef
  · simp only [estimate_msrp_by_category]
    split_ifs
    · exact hdef
    · rcases h : CATEGORY_MSRP.find? (fun e => strIn e.1 (pyLower s)) with _ | e
      · simpa [h] using hdef
      · simpa [h] using category_all_pos _ (List.mem_of_find?_eq_some h)

/-! ## Database-wide decidable facts -/

theorem db_prices_pos : ∀ mk ∈ MSRP_DATABASE, ∀ md ∈ mk.2, ∀ yp ∈ md.2, 0 < yp.2 := by
  have h : MSRP_DATABASE.all
      (fun mk => mk.2.all (fun md => md.2.all (fun yp => decide (0 < yp.2)))) = true := by
    decide
  intro mk hmk md hmd yp hyp
  exact of_decide_eq_true
    (List.all_eq_true.mp (List.all_eq_true.mp (List.all_eq_true.mp h mk hmk) md hmd) yp hyp)

theorem db_model_facts : ∀ mk ∈ MSRP_DATABASE, ∀ md ∈ mk.2,
    strIn "extrapolated" ("msrp_database_fuzzy_" ++ md.1) = false ∧
      md.1 ≠ "" ∧ md.2 ≠ [] := by
  have h : MSRP_DATABASE.all (fun mk => mk.2.all (fun md =>
      (!(strIn "extrapolated" ("msrp_database_fuzzy_" ++ md.1))) &&
        (!(md.1 == "")) && (!(md.2.isEmpty)))) = true := by
    decide
  intro mk hmk md hmd
  have h2 := List.all_eq_true.mp (List.all_eq_true.mp h mk hmk) md hmd
  simp only [Bool.and_eq_true, Bool.not_eq_true'] at h2
  refine ⟨h2.1.1, ?_, ?_⟩
  · intro he
    rw [he] at h2
    simp at h2
  · intro he
    rw [he] at h2
    simp at h2

/-- Contiguity test: the list is `a, a - 1, a - 2, ...`. -/
def isDescContig : List ℤ → Bool
  | [] => true
  | [_] => true
  | a :: b :: t => (b == a - 1) && isDescContig (b :: t)

theorem db_contig : ∀ mk ∈ MSRP_DATABASE, ∀ md ∈ mk.2,
    isDescContig (md.2.map Prod.fst) = true := by
  have h : MSRP_DATABASE.all (fun mk => mk.2.all (fun md =>
      isDescContig (md.2.map Prod.fst))) = true := by
    decide
  intro mk hmk md hmd
  exact List.all_eq_true.mp (List.all_eq_true.mp h mk hmk) md hmd

/-! ## Contiguity lemmas -/

theorem descContig_tail {a b : ℤ} {t : List ℤ} (h : isDescContig (a :: b :: t) = true) :
    b = a - 1 ∧ isDescContig (b :: t) = true := by
  rw [isDescContig] at h
  simp only [Bool.and_eq_true] at h
  exact ⟨eq_of_beq h.1, h.2⟩

theorem descContig_bounds {a : ℤ} {t : List ℤ} (h : isDescContig (a :: t) = true) :
    ∀ y ∈ a :: t, a - t.length ≤ y ∧ y ≤ a := by
  induction t generalizing a with
  | nil =>
    intro y hy
    rcases List.mem_cons.mp hy with rfl | hy2
    · simp
    · simp at hy2
  | cons b t2 ih =>
    intro y hy
    obtain ⟨rfl, h2⟩ := descContig_tail h
    rcases List.mem_cons.mp hy with rfl | hy2
    · simp only [List.length_cons]
      constructor <;> push_cast <;> omega
    · obtain ⟨h3, h4⟩ := ih h2 y hy2
      simp only [List.length_cons]
      push_cast at h3 h4 ⊢
      constructor <;> omega

theorem descContig_complete {a : ℤ} {t : List ℤ} (h : isDescContig (a :: t) = true) :
    ∀ z : ℤ, a - t.length ≤ z → z ≤ a → z ∈ a :: t := by
  induction t generalizing a with
  | nil =>
    intro z h1 h2
    simp only [List.length_nil] at h1
    have hz : z = a := by push_cast at h1; omega
    simp [hz]
  | cons b t2 ih =>
    intro z h1 h2
    obtain ⟨rfl, h3⟩ := descContig_tail h
    by_cases hz : z = a
    · simp [hz]
    · refine List.mem_cons_of_mem _ (ih h3 z ?_ ?_)
      · simp only [List.length_cons] at h1
        push_cast at h1 ⊢
        omega
      · omega

theorem descContig_one_side {a : ℤ} {t : List ℤ} (h : isDescContig (a :: t) = true)
    {year : ℤ} (hy : year ∉ a :: t) :
    (∀ y ∈ a :: t, y < year) ∨ (∀ y ∈ a :: t, year < y) := by
  by_cases h1 : a < year
  · refine Or.inl fun y hyy => lt_of_le_of_lt ((descContig_bounds h y hyy).2) h1
  · by_cases h2 : year < a - t.length
    · refine Or.inr fun y hyy => lt_of_lt_of_le h2 ((descContig_bounds h y hyy).1)
    · exact absurd (descContig_complete h year (by omega) (by omega)) hy

/-! ## Database membership plumbing -/

theorem makeData_cases (make : Option String) :
    makeData make = [] ∨ ∃ nm, (nm, makeData make) ∈ MSRP_DATABASE := by
  rcases h : List.lookup (makeKey make) MSRP_DATABASE with _ | t
  · left
    rw [makeData, h]
    rfl
  · right
    refine ⟨makeKey make, ?_⟩
    rw [makeData, h]
    simpa using lookup_mem h

theorem model_data_mem {make model : Option String} {yd : YearTable}
    (h : List.lookup (modelTitle model) (makeData make) = some yd) :
    ∃ mk ∈ MSRP_DATABASE, (modelTitle model, yd) ∈ mk.2 := by
  rcases makeData_cases make with h1 | ⟨nm, h1⟩
  · rw [h1] at h
    cases h
  · exact ⟨(nm, makeData make), h1, lookup_mem h⟩

theorem fuzzy_mem {make : Option String} {ms db_model : String} {data : YearTable}
    (h : (makeData make).find? (fun e => fuzzyCond ms e.1) = some (db_model, data)) :
    ∃ mk ∈ MSRP_DATABASE, (db_model, data) ∈ mk.2 := by
  rcases makeData_cases make with h1 | ⟨nm, h1⟩
  · rw [h1] at h
    cases h
  · exact ⟨(nm, makeData make), h1, List.mem_of_find?_eq_some h⟩

theorem model_lookup_of_getD_cons {make model : Option String} {e : ℤ × ℚ} {rest : YearTable}
    (h : (List.lookup (modelTitle model) (makeData make)).getD [] = e :: rest) :
    List.lookup (modelTitle model) (makeData make) = some (e :: rest) := by
  rcases hyd : List.lookup (modelTitle model) (makeData make) with _ | yd
  · rw [hyd] at h
    cases h
  · rw [hyd] at h
    simp only [Option.getD_some] at h
    rw [h]

theorem extrap_price_pos {yd : YearTable} {mk : String × MakeTable} {nm : String}
    (hmk : mk ∈ MSRP_DATABASE) (hmd : (nm, yd) ∈ mk.2) {cy : ℤ}
    (hcy : cy ∈ yd.map Prod.fst) (year : ℤ) :
    0 < ((List.lookup cy yd).getD 0) * (1.02 : ℚ) ^ (year - cy) := by
  obtain ⟨pb, hpb⟩ := lookup_of_mem_keys hcy
  rw [hpb, Option.getD_some]
  have hpos := db_prices_pos mk hmk (nm, yd) hmd (cy, pb) (lookup_mem hpb)
  exact mul_pos hpos (zpow_pos (by norm_num) _)

/-! ## find_msrp: positivity of every returned price -/

theorem find_msrp_ok_pos {make model : Option String} {year : ℤ} {q : ℚ} {s : String}
    (h : find_msrp make model year = .ok (some q, s)) : 0 < q := by
  rcases hmd : (List.lookup (modelTitle model) (makeData make)).getD [] with _ | ⟨⟨y0, p0⟩, rest⟩
  · -- the model key is absent: fuzzy path
    rcases model with _ | ms
    · -- model is None
      simp only [find_msrp, hmd, List.lookup_nil] at h
      split_ifs at h
      all_goals simp at h
    · rcases hfind : (makeData make).find? (fun e => fuzzyCond ms e.1)
          with _ | ⟨db_model, data⟩
      · simp [find_msrp, hmd, List.lookup_nil, hfind] at h
      · rcases hlk : List.lookup year data with _ | p
        · rcases hdata : data with _ | ⟨⟨z0, r0⟩, rest2⟩
          · rw [hdata] at hfind
            simp [find_msrp, hmd, List.lookup_nil, hfind, hdata] at h
          · rw [hdata] at hfind hlk
            simp only [find_msrp, hmd, List.lookup_nil, hfind, hlk,
              Except.ok.injEq, Prod.mk.injEq, Option.some.injEq] at h
            obtain ⟨rfl, -⟩ := h
            obtain ⟨mk, hmk, hmem⟩ := fuzzy_mem hfind
            refine extrap_price_pos hmk hmem ?_ year
            simp only [List.map_cons]
            exact pyMin_mem _ z0 (rest2.map Prod.fst)
        · simp only [find_msrp, hmd, List.lookup_nil, hfind, hlk,
            Except.ok.injEq, Prod.mk.injEq, Option.some.injEq] at h
          obtain ⟨rfl, -⟩ := h
          obtain ⟨mk, hmk, hmem⟩ := fuzzy_mem hfind
          exact db_prices_pos mk hmk _ hmem (year, p) (lookup_mem hlk)
  · -- the model key resolves to a non-empty year table
    rcases hlk : List.lookup year ((y0, p0) :: rest) with _ | p
    · -- nearest-year extrapolation
      simp only [find_msrp, hmd, hlk, Except.ok.injEq, Prod.mk.injEq,
        Option.some.injEq] at h
      obtain ⟨rfl, -⟩ := h
      obtain ⟨mk, hmk, hmem⟩ := model_data_mem (model_lookup_of_getD_cons hmd)
      refine extrap_price_pos hmk hmem ?_ year
      simp only [List.map_cons]
      exact pyMin_mem _ y0 (rest.map Prod.fst)
    · -- exact hit
      simp only [find_msrp, hmd, hlk, Except.ok.injEq, Prod.mk.injEq,
        Option.some.injEq] at h
      obtain ⟨rfl, -⟩ := h
      obtain ⟨mk, hmk, hmem⟩ := model_data_mem (model_lookup_of_getD_cons hmd)
      exact db_prices_pos mk hmk _ hmem (year, p) (lookup_mem hlk)

/-! ## find_msrp: error characterization -/

theorem lookup_none_of_not_mem_keys {α β : Type} [BEq α] [LawfulBEq α] {a : α}
    {l : List (α × β)} (h : a ∉ l.map Prod.fst) : List.lookup a l = none := by
  rcases hl : List.lookup a l with _ | b
  · rfl
  · exact absurd (List.mem_map.mpr ⟨(a, b), lookup_mem hl, rfl⟩) h

theorem model_empty_lookup (make : Option String) :
    List.lookup "" (makeData make) = none := by
  rcases makeData_cases make with h | ⟨nm, h⟩
  · rw [h]
    rfl
  · refine lookup_none_of_not_mem_keys ?_
    intro hmem
    rcases List.mem_map.mp hmem with ⟨md, hmd, hfst⟩
    exact (db_model_facts _ h md hmd).2.1 hfst

theorem find_msrp_isOk_iff (make model : Option String) (year : ℤ) :
    (find_msrp make model year).isOk = true ↔
      ¬(model = none ∧ makeData make ≠ []) := by
  rcases model with _ | ms
  · have hm : modelTitle (none : Option String) = "" := rfl
    simp only [find_msrp, hm, model_empty_lookup make, Option.getD_none,
      List.lookup_nil]
    rcases he : (makeData make).isEmpty with _ | _
    · simp only [Bool.false_eq_true, if_false]
      have : makeData make ≠ [] := by
        intro hh
        rw [hh] at he
        simp at he
      simp [Except.isOk, Except.toBool, this]
    · have : makeData make = [] := List.isEmpty_iff.mp he
      simp [Except.isOk, Except.toBool, this]
  · constructor
    · intro _
      intro hc
      exact Option.noConfusion hc.1
    · intro _
      rcases hmd : (List.lookup (modelTitle (some ms)) (makeData make)).getD []
          with _ | ⟨⟨y0, p0⟩, rest⟩
      · rcases hfind : (makeData make).find? (fun e => fuzzyCond ms e.1)
            with _ | ⟨db_model, data⟩
        · simp [find_msrp, hmd, List.lookup_nil, hfind, Except.isOk, Except.toBool]
        · rcases hlk : List.lookup year data with _ | p
          · rcases hdata : data with _ | ⟨⟨z0, r0⟩, rest2⟩
            · rw [hdata] at hfind
              obtain ⟨mk, hmk, hmem⟩ := fuzzy_mem hfind
              exact absurd rfl (db_model_facts _ hmk _ hmem).2.2
            · rw [hdata] at hfind hlk
              simp [find_msrp, hmd, List.lookup_nil, hfind, hlk, Except.isOk, Except.toBool]
          · simp [find_msrp, hmd, List.lookup_nil, hfind, hlk, Except.isOk, Except.toBool]
      · rcases hlk : List.lookup year ((y0, p0) :: rest) with _ | p <;>
          simp [find_msrp, hmd, hlk, Except.isOk, Except.toBool]

theorem estimate_price_isOk_iff (cy : ℤ) (make model : Option String) (year : ℤ)
    (mi : Option ℤ) (cond : Option String) (bc : Option String) :
    (estimate_price cy make model year mi cond bc).isOk = true ↔
      (cond ≠ none ∧ (model ≠ none ∨ makeData make = [])) := by
  rcases hf : find_msrp make model year with err | ⟨msrp0, s0⟩
  · have hiff := find_msrp_isOk_iff make model year
    rw [hf] at hiff
    simp only [Except.isOk, Except.toBool] at hiff
    have h2 : model = none ∧ makeData make ≠ [] := by
      by_contra hc
      exact absurd (hiff.mpr hc) (by simp)
    simp only [estimate_price, hf, Except.isOk, Except.toBool]
    constructor
    · intro hh
      exact absurd hh (by simp)
    · intro hh
      exact absurd (Or.inl h2.1) (by
        rcases hh.2 with h3 | h3
        · exact fun hcon => hcon.elim h3 (fun _ => h2.2 (by tauto))
        · exact fun _ => h2.2 h3)
  · rcases cond with _ | c
    · simp [estimate_price, hf, Except.isOk, Except.toBool]
    · have hiff := find_msrp_isOk_iff make model year
      rw [hf] at hiff
      simp only [Except.isOk, Except.toBool] at hiff
      have h2 : ¬(model = none ∧ makeData make ≠ []) := hiff.mp (by simp [Except.toBool])
      simp only [estimate_price, hf, Except.isOk, Except.toBool]
      constructor
      · intro _
        refine ⟨by simp, ?_⟩
        by_cases hm : model = none
        · right
          by_contra hne
          exact h2 ⟨hm, hne⟩
        · exact Or.inl hm
      · intro _
        simp [Except.toBool]

/-! ## Structural decomposition of `estimate_price` -/

theorem estimate_ok_spec {cy : ℤ} {make model : Option String} {year : ℤ}
    {mi : Option ℤ} {cond : Option String} {bc : Option String} {e : PriceEstimate}
    (h : estimate_price cy make model year mi cond bc = .ok e) :
    ∃ b : ℚ, adjusted_base cy make model year mi cond bc = .ok b ∧ 0 < b ∧
      e.market_price = max (pyRound100 b) 500 ∧
      e.low_price = max (pyRound100 (pyRound100 b * 0.88)) 300 ∧
      e.high_price = max (pyRound100 (pyRound100 b * 1.12)) 700 := by
  rcases hf : find_msrp make model year with err | ⟨msrp0, s0⟩
  · simp [estimate_price, hf] at h
  · rcases cond with _ | c
    · simp [estimate_price, hf] at h
    · simp only [estimate_price, hf] at h
      rw [Except.ok.injEq] at h
      subst h
      refine ⟨_, ?_, ?_, rfl, rfl, rfl⟩
      · simp only [adjusted_base, hf]
      · have hdep := dep_pos (if cy - year < 0 then 0 else cy - year)
        have hcond := condition_multiplier_pos c
        have hmile : ∀ va : ℤ, 0 < (match mi with
            | some mi => if mi != 0 && 0 < mi then mileage_adjustment mi va else 1
            | none => (1 : ℚ)) := by
          intro va
          rcases mi with _ | m
          · norm_num
          · dsimp only
            split_ifs with hm
            · exact mileage_adjustment_pos m va
            · norm_num
        have hmsrp : 0 < (if msrpTruthy msrp0 then msrp0.getD 0
            else estimate_msrp_by_category bc) := by
          rcases msrp0 with _ | q
          · simpa [msrpTruthy] using estimate_msrp_by_category_pos bc
          · by_cases hq : q = 0
            · simpa [msrpTruthy, hq] using estimate_msrp_by_category_pos bc
            · have ht : msrpTruthy (some q) = true := by simp [msrpTruthy, hq]
              rw [if_pos ht, Option.getD_some]
              exact find_msrp_ok_pos hf
        exact mul_pos (mul_pos (mul_pos hmsrp hdep) (hmile _)) hcond

/-! ## Concrete evaluation helpers -/

/-- Closed-form value of the depreciation factor at age 4. -/
theorem dep_factor_age4 : get_depreciation_factor 4 = 0.5508 := by
  rw [get_depreciation_factor]
  rw [show (annual_rates.take (min (Int.toNat 4) annual_rates.length))
      = [0.20, 0.15, 0.10, 0.10] from rfl]
  rw [show annual_rates.length = 10 from rfl]
  norm_num [List.foldl_cons, List.foldl_nil]

/-- Closed-form value of the depreciation factor at age 6. -/
theorem dep_factor_age6 : get_depreciation_factor 6 = 0.4610196 := by
  rw [get_depreciation_factor]
  rw [show (annual_rates.take (min (Int.toNat 6) annual_rates.length))
      = [0.20, 0.15, 0.10, 0.10, 0.10, 0.07] from rfl]
  rw [show annual_rates.length = 10 from rfl]
  norm_num [List.foldl_cons, List.foldl_nil]

theorem except_ok_exists {ε α : Type} {x : Except ε α} (h : x.isOk = true) :
    ∃ a, x = .ok a := by
  cases x with
  | error e => simp [Except.isOk, Except.toBool] at h
  | ok a => exact ⟨a, rfl⟩

/-- Full evaluation of the running example: 2020 Toyota Camry at current
year 2024, no mileage, good condition. -/
theorem eval_camry_2020 :
    estimate_price 2024 (some "TOYOTA") (some "Camry") 2020 none (some "good") none =
    .ok { make := some "TOYOTA", model := some "Camry", year := 2020,
          mileage := none, condition := some "good",
          low_price := 12200, market_price := 13900, high_price := 15600,
          msrp := 25250, confidence := 0.80, source := "msrp_database" } := by
  rw [estimate_price,
    show find_msrp (some "TOYOTA") (some "Camry") 2020
      = .ok (some 25250, "msrp_database") from rfl]
  norm_num [show msrpTruthy (some 25250) = true from rfl,
    show strIn "extrapolated" "msrp_database" = false from rfl,
    show strIn "fuzzy" "msrp_database" = false from rfl,
    show condition_multiplier "good" = 1.00 from rfl,
    dep_factor_age4, pyRound100, pyRoundTo, rhe]

/-- Full evaluation: 2018 Honda Civic at current year 2024. -/
theorem eval_civic_2018 :
    estimate_price 2024 (some "HONDA") (some "Civic") 2018 none (some "good") none =
    .ok { make := some "HONDA", model := some "Civic", year := 2018,
          mileage := none, condition := some "good",
          low_price := 8400, market_price := 9500, high_price := 10600,
          msrp := 20650, confidence := 0.80, source := "msrp_database" } := by
  rw [estimate_price,
    show find_msrp (some "HONDA") (some "Civic") 2018
      = .ok (some 20650, "msrp_database") from rfl]
  norm_num [show msrpTruthy (some 20650) = true from rfl,
    show strIn "extrapolated" "msrp_database" = false from rfl,
    show strIn "fuzzy" "msrp_database" = false from rfl,
    show condition_multiplier "good" = 1.00 from rfl,
    dep_factor_age6, pyRound100, pyRoundTo, rhe]

/-! ## Claims -/

/-- C6: the depreciation factor is monotonically non-increasing in vehicle
age (for ages a ≤ b the factor at b is at most the factor at a), always
lies between 0.05 and 1.0, and equals exactly 1.0 for age ≤ 0. -/
theorem C6_depreciation_monotone_bounded :
    (∀ a b : ℤ, a ≤ b → get_depreciation_factor b ≤ get_depreciation_factor a) ∧
    (∀ a : ℤ, (0.05 : ℚ) ≤ get_depreciation_factor a ∧ get_depreciation_factor a ≤ 1) ∧
    (∀ a : ℤ, a ≤ 0 → get_depreciation_factor a = 1) :=
  ⟨fun _ _ h => dep_anti h, dep_bounds, fun _ h => dep_of_nonpos h⟩

theorem C6_witness :
    get_depreciation_factor 7 ≤ get_depreciation_factor 3 ∧
    ((0.05 : ℚ) ≤ get_depreciation_factor 12 ∧ get_depreciation_factor 12 ≤ 1) ∧
    get_depreciation_factor (-3) = 1 :=
  ⟨C6_depreciation_monotone_bounded.1 3 7 (by norm_num),
   C6_depreciation_monotone_bounded.2.1 12,
   C6_depreciation_monotone_bounded.2.2 (-3) (by norm_num)⟩

/-- C7: for every mileage and vehicle age, the mileage adjustment equals
one plus the fraction −(mileage − expected)/10000 × 0.03 clamped to
[−0.15, +0.15] with expected mileage max(age, 1) × 12000, and therefore
the multiplier always lies in [0.85, 1.15]. -/
theorem C7_mileage_adjustment_clamped :
    ∀ (mileage vehicle_age : ℤ),
      mileage_adjustment mileage vehicle_age =
        1 + max (-0.15 : ℚ) (min (0.15 : ℚ)
          (-(((mileage : ℚ) - ((max vehicle_age 1 : ℤ) : ℚ) * 12000) / 10000) * 0.03)) ∧
      (0.85 : ℚ) ≤ mileage_adjustment mileage vehicle_age ∧
      mileage_adjustment mileage vehicle_age ≤ 1.15 := by
  intro m a
  refine ⟨?_, mileage_adjustment_bounds m a⟩
  have hif : (if a ≤ 0 then (1 : ℤ) else a) = max a 1 := by
    split_ifs with h
    · exact (max_eq_right (by omega : a ≤ 1)).symm
    · exact (max_eq_left (by omega : 1 ≤ a)).symm
  have harg : ((m - (if a ≤ 0 then (1 : ℤ) else a) * 12000 : ℤ) : ℚ) =
      (m : ℚ) - ((max a 1 : ℤ) : ℚ) * 12000 := by
    rw [hif]
    push_cast
    ring
  simp only [mileage_adjustment]
  rw [harg]

/-- C1: every price estimate that `estimate_price` returns satisfies
low_price ≤ market_price ≤ high_price, with low_price ≥ 300,
market_price ≥ 500 and high_price ≥ 700. -/
theorem C1_price_band_invariant (cy : ℤ) (make model : Option String) (year : ℤ)
    (mi : Option ℤ) (cond : Option String) (bc : Option String) (e : PriceEstimate)
    (h : estimate_price cy make model year mi cond bc = .ok e) :
    e.low_price ≤ e.market_price ∧ e.market_price ≤ e.high_price ∧
      300 ≤ e.low_price ∧ 500 ≤ e.market_price ∧ 700 ≤ e.high_price := by
  obtain ⟨b, -, hb, hm, hl, hh⟩ := estimate_ok_spec h
  have hk0 : 0 ≤ rhe (b / 100) := rhe_nonneg (by positivity)
  have hmr : pyRound100 b = ((rhe (b / 100) : ℤ) : ℚ) * 100 := by
    rw [pyRound100]
  have h88 := round88_le hk0
  have h112 := round112_ge hk0
  rw [hm, hl, hh, hmr]
  refine ⟨?_, ?_, le_max_right _ _, le_max_right _ _, le_max_right _ _⟩
  · exact max_le (le_trans h88 (le_max_left _ _))
      (le_trans (by norm_num) (le_max_right _ _))
  · exact max_le (le_trans h112 (le_max_left _ _))
      (le_trans (by norm_num) (le_max_right _ _))

theorem C1_witness :
    (12200 : ℚ) ≤ 13900 ∧ (13900 : ℚ) ≤ 15600 ∧
      (300 : ℚ) ≤ 12200 ∧ (500 : ℚ) ≤ 13900 ∧ (700 : ℚ) ≤ 15600 :=
  C1_price_band_invariant 2024 (some "TOYOTA") (some "Camry") 2020 none
    (some "good") none _ eval_camry_2020

/-- C4: the market price is the adjusted base value rounded to the nearest
100 (hence a multiple of 100), and the low/high prices are computed from
that already-rounded market value via the 0.88 and 1.12 multipliers, each
rounded to the nearest 100, with the 300/500/700 floors applied
afterwards. -/
theorem C4_rounding_structure (cy : ℤ) (make model : Option String) (year : ℤ)
    (mi : Option ℤ) (cond : Option String) (bc : Option String) (e : PriceEstimate)
    (h : estimate_price cy make model year mi cond bc = .ok e) :
    ∃ b : ℚ, adjusted_base cy make model year mi cond bc = .ok b ∧
      e.market_price = max (pyRound100 b) 500 ∧
      e.low_price = max (pyRound100 (pyRound100 b * 0.88)) 300 ∧
      e.high_price = max (pyRound100 (pyRound100 b * 1.12)) 700 ∧
      ∃ j : ℤ, e.market_price = 100 * j := by
  obtain ⟨b, hab, -, hm, hl, hh⟩ := estimate_ok_spec h
  refine ⟨b, hab, hm, hl, hh, ?_⟩
  rw [hm, pyRound100]
  rcases le_or_lt 500 (((rhe (b / 100) : ℤ) : ℚ) * 100) with h5 | h5
  · exact ⟨rhe (b / 100), by rw [max_eq_left h5]; ring⟩
  · exact ⟨5, by rw [max_eq_right (le_of_lt h5)]; norm_num⟩

theorem C4_witness :
    ∃ b : ℚ, adjusted_base 2024 (some "HONDA") (some "Civic") 2018 none
        (some "good") none = .ok b ∧
      (9500 : ℚ) = max (pyRound100 b) 500 ∧
      (8400 : ℚ) = max (pyRound100 (pyRound100 b * 0.88)) 300 ∧
      (10600 : ℚ) = max (pyRound100 (pyRound100 b * 1.12)) 700 ∧
      ∃ j : ℤ, (9500 : ℚ) = 100 * j :=
  C4_rounding_structure 2024 (some "HONDA") (some "Civic") 2018 none
    (some "good") none _ eval_civic_2018

/-- C3 (amended): `estimate_price` returns a well-formed estimate exactly
when the condition argument is a string and the model argument is a string
or the make is not in the reference table; passing condition = None, or
model = None together with a known make, raises (AttributeError on
`None.lower()`). All other missing/empty optional fields degrade
gracefully. -/
theorem C3_graceful_degradation (cy : ℤ) (make model : Option String) (year : ℤ)
    (mi : Option ℤ) (cond : Option String) (bc : Option String) :
    (estimate_price cy make model year mi cond bc).isOk = true ↔
      (cond ≠ none ∧ (model ≠ none ∨ makeData make = [])) :=
  estimate_price_isOk_iff cy make model year mi cond bc

/-- C3 counterexample: with condition = None (and every other field
well-formed) `estimate_price` raises instead of returning an estimate. -/
theorem C3_counterexample :
    estimate_price 2024 (some "Toyota") (some "Camry") 2020 none none none =
      .error "AttributeError" := rfl

/-! ## C2 machinery: provenance tags are never the category tag -/

theorem append_ne_category {a b : String} (ha : 18 ≤ a.length) :
    a ++ b ≠ "category_estimate" := by
  intro h
  have hl := congrArg String.length h
  rw [String.length_append] at hl
  have hc : String.length "category_estimate" = 17 := rfl
  omega

theorem find_msrp_tag_ne_category {make model : Option String} {year : ℤ} {q : ℚ}
    {s : String} (h : find_msrp make model year = .ok (some q, s)) :
    s ≠ "category_estimate" := by
  rcases hmd : (List.lookup (modelTitle model) (makeData make)).getD [] with _ | ⟨⟨y0, p0⟩, rest⟩
  · rcases model with _ | ms
    · simp only [find_msrp, hmd, List.lookup_nil] at h
      split_ifs at h
      all_goals simp at h
    · rcases hfind : (makeData make).find? (fun e => fuzzyCond ms e.1)
          with _ | ⟨db_model, data⟩
      · simp [find_msrp, hmd, List.lookup_nil, hfind] at h
      · rcases hlk : List.lookup year data with _ | p
        · rcases hdata : data with _ | ⟨⟨z0, r0⟩, rest2⟩
          · rw [hdata] at hfind
            simp [find_msrp, hmd, List.lookup_nil, hfind, hdata] at h
          · rw [hdata] at hfind hlk
            simp only [find_msrp, hmd, List.lookup_nil, hfind, hlk,
              Except.ok.injEq, Prod.mk.injEq, Option.some.injEq] at h
            rw [← h.2]
            refine append_ne_category ?_
            rw [String.length_append]
            have h20 : 20 ≤ String.length "msrp_database_fuzzy_" := by decide
            omega
        · simp only [find_msrp, hmd, List.lookup_nil, hfind, hlk,
            Except.ok.injEq, Prod.mk.injEq, Option.some.injEq] at h
          rw [← h.2]
          refine append_ne_category ?_
          decide
  · rcases hlk : List.lookup year ((y0, p0) :: rest) with _ | p
    · simp only [find_msrp, hmd, hlk, Except.ok.injEq, Prod.mk.injEq,
        Option.some.injEq] at h
      rw [← h.2]
      refine append_ne_category ?_
      decide
    · simp only [find_msrp, hmd, hlk, Except.ok.injEq, Prod.mk.injEq,
        Option.some.injEq] at h
      rw [← h.2]
      decide

theorem pyRoundTo2_080 : pyRoundTo 2 (0.80 : ℚ) = 0.80 := by norm_num [pyRoundTo, rhe]
theorem pyRoundTo2_065 : pyRoundTo 2 (0.65 : ℚ) = 0.65 := by norm_num [pyRoundTo, rhe]
theorem pyRoundTo2_055 : pyRoundTo 2 (0.55 : ℚ) = 0.55 := by norm_num [pyRoundTo, rhe]
theorem pyRoundTo2_035 : pyRoundTo 2 (0.35 : ℚ) = 0.35 := by norm_num [pyRoundTo, rhe]

/-- C2 (amended): the reported confidence is always exactly one of 0.80,
0.65, 0.55, 0.35, determined by provenance as follows: the exact-hit tag
reports 0.80; any provenance tag containing "extrapolated" — including a
fuzzy match that also needed year extrapolation — reports 0.65; a fuzzy
tag without extrapolation reports 0.55; and the category fallback reports
0.35.  (The frozen claim assigned 0.55 to fuzzy-with-extrapolation; the
code checks "extrapolated" before "fuzzy", so that path reports 0.65, see
the counterexample.) -/
theorem C2_confidence_tiers (cy : ℤ) (make model : Option String) (year : ℤ)
    (mi : Option ℤ) (cond : Option String) (bc : Option String) (e : PriceEstimate)
    (h : estimate_price cy make model year mi cond bc = .ok e) :
    e.confidence ∈ [(0.80 : ℚ), 0.65, 0.55, 0.35] ∧
    (e.source = "msrp_database" → e.confidence = 0.80) ∧
    (strIn "extrapolated" e.source = true → e.confidence = 0.65) ∧
    (strIn "fuzzy" e.source = true → strIn "extrapolated" e.source = false →
      e.confidence = 0.55) ∧
    (e.source = "category_estimate" → e.confidence = 0.35) := by
  rcases hf : find_msrp make model year with err | ⟨msrp0, s0⟩
  · simp [estimate_price, hf] at h
  · rcases cond with _ | c
    · simp [estimate_price, hf] at h
    · simp only [estimate_price, hf] at h
      rw [Except.ok.injEq] at h
      subst h
      dsimp only
      rcases ht : msrpTruthy msrp0 with _ | _
      · simp only [Bool.false_eq_true, if_false, pyRoundTo2_035]
        refine ⟨by simp, ?_, ?_, ?_, fun _ => trivial⟩
        · intro hs
          exact absurd hs (by decide)
        · intro hs
          exact absurd hs (by decide)
        · intro hs
          exact absurd hs (by decide)
      · have hq : ∃ qq, msrp0 = some qq ∧ qq ≠ 0 := by
          rcases msrp0 with _ | qq
          · exact absurd ht (by simp [msrpTruthy])
          · refine ⟨qq, rfl, ?_⟩
            intro h0
            rw [h0] at ht
            simp [msrpTruthy] at ht
        obtain ⟨qq, rfl, -⟩ := hq
        have hne := find_msrp_tag_ne_category hf
        simp only [eq_self_iff_true, if_true]
        rcases hex : strIn "extrapolated" s0 with _ | _
        · rcases hfz : strIn "fuzzy" s0 with _ | _
          · simp only [Bool.false_eq_true, if_false, pyRoundTo2_080]
            refine ⟨by simp, fun _ => trivial, ?_, ?_, fun hs => absurd hs hne⟩
            · intro hs
              exact absurd hs (by simp)
            · intro hs
              exact absurd hs (by simp)
          · simp only [Bool.false_eq_true, if_false, if_true, pyRoundTo2_055]
            refine ⟨by simp, ?_, ?_, fun _ _ => trivial, fun hs => absurd hs hne⟩
            · intro hs
              rw [hs] at hfz
              exact absurd hfz (by decide)
            · intro hs
              exact absurd hs (by simp)
        · simp only [if_true, pyRoundTo2_065]
          refine ⟨by simp, ?_, fun _ => trivial, ?_, fun hs => absurd hs hne⟩
          · intro hs
            rw [hs] at hex
            exact absurd hex (by decide)
          · intro _ hs
            exact absurd hs (by simp)

/-- C2 counterexample: for make "TOYOTA", model "Camry LE", year 2009 the
resolver takes the fuzzy path (model title "Camry Le" is not a key, but
"camry" is a substring of "camry le") and then extrapolates from 2010; the
frozen claim says such a fuzzy-plus-extrapolation resolution reports
confidence 0.55, but the engine reports 0.65 because the "extrapolated"
substring check precedes the "fuzzy" check. -/
theorem C2_counterexample :
    (estimate_price 2024 (some "TOYOTA") (some "Camry LE") 2009 none (some "good")
        none).toOption.map (fun e => (e.source, e.confidence)) =
      some ("msrp_database_fuzzy_Camry_extrapolated", 0.65) ∧
    (0.65 : ℚ) ≠ 0.55 := by
  constructor
  · rw [estimate_price, show find_msrp (some "TOYOTA") (some "Camry LE") 2009 =
      .ok (some (21800 * (1.02 : ℚ) ^ ((2009 : ℤ) - 2010)),
        "msrp_database_fuzzy_Camry_extrapolated") from rfl]
    have hT : msrpTruthy (some (21800 * (1.02 : ℚ) ^ ((2009 : ℤ) - 2010))) = true := by
      simp only [msrpTruthy, bne_iff_ne, ne_eq, decide_eq_true_eq]
      norm_num
    simp only [hT, eq_self_iff_true, if_true,
      show strIn "extrapolated" "msrp_database_fuzzy_Camry_extrapolated" = true from rfl,
      Except.toOption, Option.map, pyRoundTo2_065]
  · norm_num

theorem C2_witness :
    ((0.80 : ℚ) ∈ [(0.80 : ℚ), 0.65, 0.55, 0.35]) ∧
    ("msrp_database" = "msrp_database" → (0.80 : ℚ) = 0.80) ∧
    (strIn "extrapolated" "msrp_database" = true → (0.80 : ℚ) = 0.65) ∧
    (strIn "fuzzy" "msrp_database" = true → strIn "extrapolated" "msrp_database" = false →
      (0.80 : ℚ) = 0.55) ∧
    ("msrp_database" = "category_estimate" → (0.80 : ℚ) = 0.35) :=
  C2_confidence_tiers 2024 (some "TOYOTA") (some "Camry") 2020 none
    (some "good") none _ eval_camry_2020

/-- C5: the contract-to-market classification uses exclusive boundaries in
first-match order on the computed deviation d = (finance − market)/market
× 100: overpriced iff d > 15 (so exactly 15 is NOT overpriced),
slightly_above_market iff 5 < d ≤ 15 (exactly 5 is fair), good_deal iff
d < −10 (exactly −10 is fair), and fair otherwise. -/
theorem C5_deviation_thresholds (cy : ℤ) (fin : FinanceVal) (make model : Option String)
    (year : Option ℤ) (c : MarketComparison)
    (h : compare_contract_to_market cy fin make model year = .ok (.available c)) :
    ((15 : ℚ) < (c.finance_amount - c.market_price) / c.market_price * 100 ↔
      c.assessment = "overpriced") ∧
    ((5 : ℚ) < (c.finance_amount - c.market_price) / c.market_price * 100 ∧
      (c.finance_amount - c.market_price) / c.market_price * 100 ≤ 15 ↔
      c.assessment = "slightly_above_market") ∧
    ((c.finance_amount - c.market_price) / c.market_price * 100 < (-10 : ℚ) ↔
      c.assessment = "good_deal") ∧
    ((-10 : ℚ) ≤ (c.finance_amount - c.market_price) / c.market_price * 100 ∧
      (c.finance_amount - c.market_price) / c.market_price * 100 ≤ 5 ↔
      c.assessment = "fair") := by
  rw [compare_contract_to_market] at h
  split_ifs at h with hg
  · simp at h
  · rcases hp : pyFloat fin with _ | famt
    · rw [hp] at h
      simp at h
    · rw [hp] at h
      rcases he : estimate_price cy make model (year.getD 0) none (some "good") none
          with err | est
      · rw [he] at h
        simp at h
      · rw [he] at h
        simp only [Except.ok.injEq, CompareResult.available.injEq] at h
        subst h
        dsimp only
        split_ifs with h1 h2 h3
        · refine ⟨⟨fun _ => rfl, fun _ => h1⟩, ?_, ?_, ?_⟩
          · exact ⟨fun hc => absurd hc.2 (not_le.mpr h1), fun hs => absurd hs (by decide)⟩
          · exact ⟨fun hc => False.elim (by linarith), fun hs => absurd hs (by decide)⟩
          · exact ⟨fun hc => False.elim (by linarith [hc.2]), fun hs => absurd hs (by decide)⟩
        · refine ⟨?_, ⟨fun _ => rfl, fun _ => ⟨h2, not_lt.mp h1⟩⟩, ?_, ?_⟩
          · exact ⟨fun hgt => absurd hgt h1, fun hs => absurd hs (by decide)⟩
          · exact ⟨fun hc => False.elim (by linarith), fun hs => absurd hs (by decide)⟩
          · exact ⟨fun hc => False.elim (by linarith [hc.2]), fun hs => absurd hs (by decide)⟩
        · refine ⟨?_, ?_, ⟨fun _ => rfl, fun _ => h3⟩, ?_⟩
          · exact ⟨fun hgt => absurd hgt h1, fun hs => absurd hs (by decide)⟩
          · exact ⟨fun hc => absurd hc.1 h2, fun hs => absurd hs (by decide)⟩
          · exact ⟨fun hc => absurd h3 (not_lt.mpr hc.1), fun hs => absurd hs (by decide)⟩
        · refine ⟨?_, ?_, ?_, ⟨fun _ => rfl, fun _ => ⟨not_lt.mp h3, not_lt.mp h2⟩⟩⟩
          · exact ⟨fun hgt => absurd hgt h1, fun hs => absurd hs (by decide)⟩
          · exact ⟨fun hc => absurd hc.1 h2, fun hs => absurd hs (by decide)⟩
          · exact ⟨fun hc => absurd hc h3, fun hs => absurd hs (by decide)⟩

/-- Full evaluation of a comparison: finance 40000 against the 2020 Camry
market value 13900 at current year 2024. -/
theorem eval_compare_overpriced :
    compare_contract_to_market 2024 (.num 40000) (some "TOYOTA") (some "Camry")
        (some 2020) =
      .ok (.available ⟨40000, 13900, 15600, 939/5, 0.80, "overpriced"⟩) := by
  rw [compare_contract_to_market]
  rw [if_neg (by decide)]
  rw [show pyFloat (.num 40000) = some 40000 from rfl]
  rw [show ((some 2020 : Option ℤ)).getD 0 = 2020 from rfl, eval_camry_2020]
  norm_num [pyRoundTo, rhe]

theorem C5_witness :
    ((15 : ℚ) < ((40000 : ℚ) - 13900) / 13900 * 100 ↔
      "overpriced" = "overpriced") ∧
    ((5 : ℚ) < ((40000 : ℚ) - 13900) / 13900 * 100 ∧
      ((40000 : ℚ) - 13900) / 13900 * 100 ≤ 15 ↔
      "overpriced" = "slightly_above_market") ∧
    (((40000 : ℚ) - 13900) / 13900 * 100 < (-10 : ℚ) ↔
      "overpriced" = "good_deal") ∧
    ((-10 : ℚ) ≤ ((40000 : ℚ) - 13900) / 13900 * 100 ∧
      ((40000 : ℚ) - 13900) / 13900 * 100 ≤ 5 ↔
      "overpriced" = "fair") :=
  C5_deviation_thresholds 2024 (.num 40000) (some "TOYOTA") (some "Camry")
    (some 2020) _ eval_compare_overpriced

/-- C8 (amended): `compare_contract_to_market` never raises and returns a
soft-failure result exactly when the finance amount is Python-falsy
(missing, zero, or the empty string) or not convertible to a number, or
any of make/model/year is falsy (missing, empty, or zero).  (The frozen
claim said "missing or not convertible" only; a present, convertible
finance amount of 0 also soft-fails, see the counterexample.) -/
theorem C8_soft_failure (cy : ℤ) (fin : FinanceVal) (make model : Option String)
    (year : Option ℤ) :
    (compare_contract_to_market cy fin make model year).isOk = true ∧
    ((∃ r, compare_contract_to_market cy fin make model year = .ok (.unavailable r)) ↔
      (finTruthy fin = false ∨ pyFloat fin = none ∨ optStrTruthy make = false ∨
        optStrTruthy model = false ∨ optIntTruthy year = false)) := by
  rw [compare_contract_to_market]
  by_cases hg : (!(finTruthy fin) ||
      !(optStrTruthy make && optStrTruthy model && optIntTruthy year)) = true
  · rw [if_pos hg]
    refine ⟨rfl, ?_, fun _ => ⟨"Insufficient data for price comparison", rfl⟩⟩
    intro _
    simp only [Bool.or_eq_true, Bool.not_eq_true'] at hg
    rcases hg with h1 | h1
    · exact Or.inl h1
    · rcases hm : optStrTruthy make with _ | _
      · exact Or.inr (Or.inr (Or.inl rfl))
      · rcases hmo : optStrTruthy model with _ | _
        · exact Or.inr (Or.inr (Or.inr (Or.inl rfl)))
        · rcases hy : optIntTruthy year with _ | _
          · exact Or.inr (Or.inr (Or.inr (Or.inr rfl)))
          · rw [hm, hmo, hy] at h1
            simp at h1
  · rw [if_neg hg]
    have hgf : (!(finTruthy fin) ||
        !(optStrTruthy make && optStrTruthy model && optIntTruthy year)) = false := by
      rcases hb : (!(finTruthy fin) ||
          !(optStrTruthy make && optStrTruthy model && optIntTruthy year)) with _ | _
      · rfl
      · exact absurd hb hg
    have hft : finTruthy fin = true := by
      rcases hb : finTruthy fin with _ | _
      · rw [hb] at hgf
        simp at hgf
      · rfl
    have hmk : optStrTruthy make = true := by
      rcases hb : optStrTruthy make with _ | _
      · rw [hb] at hgf
        simp at hgf
      · rfl
    have hmo : optStrTruthy model = true := by
      rcases hb : optStrTruthy model with _ | _
      · rw [hb] at hgf
        simp at hgf
      · rfl
    have hyr : optIntTruthy year = true := by
      rcases hb : optIntTruthy year with _ | _
      · rw [hb] at hgf
        simp at hgf
      · rfl
    rcases hp : pyFloat fin with _ | famt
    · simp only [hp]
      refine ⟨rfl, fun _ => Or.inr (Or.inl trivial), fun _ =>
        ⟨"Invalid finance amount", rfl⟩⟩
    · simp only [hp]
      have hmodel_ne : model ≠ none := by
        rcases model with _ | m
        · rw [show optStrTruthy none = false from rfl] at hmo
          exact absurd hmo (by simp)
        · simp
      have hok := (estimate_price_isOk_iff cy make model (year.getD 0) none
        (some "good") none).mpr ⟨by simp, Or.inl hmodel_ne⟩
      obtain ⟨est, hest⟩ := except_ok_exists hok
      simp only [hest]
      refine ⟨rfl, ?_, ?_⟩
      · rintro ⟨r, hr⟩
        simp at hr
      · intro hrhs
        rcases hrhs with h1 | h1 | h1 | h1 | h1
        · rw [hft] at h1
          exact absurd h1 (by simp)
        · exact absurd h1 (by simp)
        · rw [hmk] at h1
          exact absurd h1 (by simp)
        · rw [hmo] at h1
          exact absurd h1 (by simp)
        · rw [hyr] at h1
          exact absurd h1 (by simp)

/-- C8 counterexample: a finance amount of 0 is present and convertible
(float(0) = 0.0), yet the comparison soft-fails, because `not
finance_amount` treats the number 0 as missing. -/
theorem C8_counterexample :
    compare_contract_to_market 2024 (.num 0) (some "Toyota") (some "Camry")
        (some 2020) =
      .ok (.unavailable "Insufficient data for price comparison") ∧
    pyFloat (.num 0) = some 0 :=
  ⟨rfl, rfl⟩

/-- C9: when the model is present but the requested year is not, the
resolver picks the table year minimizing |tableYear − requestedYear| —
and among equally distant years the chosen one is least (vacuously, since
every year table is a contiguous range, ties cannot occur) — and returns
that year's price times 1.02^(requestedYear − chosenYear), tagging the
provenance with the chosen year. -/
theorem C9_nearest_year_extrapolation (make model : Option String) (year : ℤ)
    (yd : YearTable)
    (hyd : List.lookup (modelTitle model) (makeData make) = some yd)
    (hmiss : List.lookup year yd = none) (hne : yd ≠ []) :
    ∃ cy p, cy ∈ yd.map Prod.fst ∧
      (∀ y2 ∈ yd.map Prod.fst, |cy - year| ≤ |y2 - year|) ∧
      (∀ y2 ∈ yd.map Prod.fst, |y2 - year| = |cy - year| → cy ≤ y2) ∧
      List.lookup cy yd = some p ∧
      find_msrp make model year =
        .ok (some (p * (1.02 : ℚ) ^ (year - cy)),
          "msrp_database_extrapolated_from_" ++ toString cy) := by
  rcases yd with _ | ⟨⟨y0, p0⟩, rest⟩
  · exact absurd rfl hne
  · have hmd : (List.lookup (modelTitle model) (makeData make)).getD [] =
        (y0, p0) :: rest := by
      rw [hyd]
      rfl
    have hkeys : ((y0, p0) :: rest).map Prod.fst = y0 :: rest.map Prod.fst :=
      List.map_cons _ _ _
    have hcymem : pyMin (fun y => |y - year|) y0 (rest.map Prod.fst) ∈
        y0 :: rest.map Prod.fst := pyMin_mem (fun y => |y - year|) y0 (rest.map Prod.fst)
    obtain ⟨p, hp⟩ := lookup_of_mem_keys
      (show pyMin (fun y => |y - year|) y0 (rest.map Prod.fst) ∈
        ((y0, p0) :: rest).map Prod.fst by rw [hkeys]; exact hcymem)
    obtain ⟨mk, hmk, hmem⟩ := model_data_mem hyd
    have hcontig := db_contig mk hmk _ hmem
    rw [hkeys] at hcontig
    have hnotmem : year ∉ y0 :: rest.map Prod.fst := by
      have h2 := not_mem_keys_of_lookup_none hmiss
      rw [hkeys] at h2
      exact h2
    have hside := descContig_one_side hcontig hnotmem
    refine ⟨pyMin (fun y => |y - year|) y0 (rest.map Prod.fst), p, ?_, ?_, ?_, hp, ?_⟩
    · rw [hkeys]
      exact hcymem
    · intro y2 hy2
      rw [hkeys] at hy2
      exact pyMin_le (fun y => |y - year|) y0 (rest.map Prod.fst) y2 hy2
    · intro y2 hy2 habs
      rw [hkeys] at hy2
      rcases hside with hl | hr
      · have hc := hl _ hcymem
        have h2 := hl _ hy2
        rw [abs_of_neg (by omega), abs_of_neg (by omega)] at habs
        omega
      · have hc := hr _ hcymem
        have h2 := hr _ hy2
        rw [abs_of_pos (by omega), abs_of_pos (by omega)] at habs
        omega
    · simp only [find_msrp, hmd, hmiss]
      rw [hp, Option.getD_some]

theorem C9_witness :
    ∃ cy p, cy ∈ ([(2024, (44990 : ℚ)), (2023, 47490), (2022, 62990),
        (2021, 53990), (2020, 49990)] : YearTable).map Prod.fst ∧
      (∀ y2 ∈ ([(2024, (44990 : ℚ)), (2023, 47490), (2022, 62990),
        (2021, 53990), (2020, 49990)] : YearTable).map Prod.fst,
        |cy - 2019| ≤ |y2 - 2019|) ∧
      (∀ y2 ∈ ([(2024, (44990 : ℚ)), (2023, 47490), (2022, 62990),
        (2021, 53990), (2020, 49990)] : YearTable).map Prod.fst,
        |y2 - 2019| = |cy - 2019| → cy ≤ y2) ∧
      List.lookup cy ([(2024, (44990 : ℚ)), (2023, 47490), (2022, 62990),
        (2021, 53990), (2020, 49990)] : YearTable) = some p ∧
      find_msrp (some "Tesla") (some "Model Y") 2019 =
        .ok (some (p * (1.02 : ℚ) ^ ((2019 : ℤ) - cy)),
          "msrp_database_extrapolated_from_" ++ toString cy) :=
  C9_nearest_year_extrapolation (some "Tesla") (some "Model Y") 2019
    [(2024, 44990), (2023, 47490), (2022, 62990), (2021, 53990), (2020, 49990)]
    rfl rfl (by simp)

/-- C10: calling `estimate_price` with an empty-string model and a make
present in the reference table never falls through to the category
fallback: the empty string is a substring of every model name, so the
fuzzy step matches the first model stored under that make and the
provenance is that model's fuzzy tag (with extrapolation when the year is
absent); when the requested year is in that model's table, the returned
reference price is that model's price. -/
theorem C10_empty_model_fuzzy (cy : ℤ) (make : Option String) (year : ℤ)
    (mi : Option ℤ) (c : String) (bc : Option String)
    (n : String) (yd : YearTable) (rest : MakeTable)
    (hmk : makeData make = (n, yd) :: rest) :
    ∃ e, estimate_price cy make (some "") year mi (some c) bc = .ok e ∧
      (e.source = "msrp_database_fuzzy_" ++ n ∨
        e.source = "msrp_database_fuzzy_" ++ n ++ "_extrapolated") ∧
      e.source ≠ "category_estimate" ∧
      (e.confidence = 0.55 ∨ e.confidence = 0.65) ∧
      (∀ p, List.lookup year yd = some p → e.msrp = pyRoundTo 0 p ∧
        e.source = "msrp_database_fuzzy_" ++ n) := by
  have hdbmem : ∃ nm, (nm, makeData make) ∈ MSRP_DATABASE := by
    rcases makeData_cases make with h | h
    · rw [hmk] at h
      cases h
    · exact h
  obtain ⟨nm, hnm⟩ := hdbmem
  have hmdmem : (n, yd) ∈ (nm, makeData make).2 := by
    rw [hmk]
    exact List.mem_cons_self _ _
  have hfacts := db_model_facts _ hnm _ hmdmem
  have hmd : (List.lookup (modelTitle (some "")) (makeData make)).getD [] = [] := by
    rw [show modelTitle (some "") = "" from rfl, model_empty_lookup]
    rfl
  have hfuzzy : fuzzyCond "" n = true := by
    rw [fuzzyCond]
    have h2 : strIn (pyLower "") (pyLower n) = true := strIn_empty _
    rw [h2, Bool.or_true]
  have hfind : (makeData make).find? (fun e => fuzzyCond "" e.1) = some (n, yd) := by
    rw [hmk]
    exact List.find?_cons_of_pos _ hfuzzy
  have hfzin : strIn "fuzzy" ("msrp_database_fuzzy_" ++ n) = true :=
    strIn_append_left n (by decide)
  rcases hyk : List.lookup year yd with _ | p
  · -- extrapolation inside the fuzzy table
    rcases hydshape : yd with _ | ⟨⟨z0, r0⟩, rest2⟩
    · rw [hydshape] at hfacts
      exact absurd rfl hfacts.2.2
    · rw [hydshape] at hfind hyk
      have hfm : find_msrp make (some "") year =
          .ok (some (((List.lookup (pyMin (fun y => |y - year|) z0
              (rest2.map Prod.fst)) ((z0, r0) :: rest2)).getD 0) *
              (1.02 : ℚ) ^ (year - pyMin (fun y => |y - year|) z0
              (rest2.map Prod.fst))),
            "msrp_database_fuzzy_" ++ n ++ "_extrapolated") := by
        simp only [find_msrp, hmd, List.lookup_nil, hfind, hyk]
      have hvpos : 0 < ((List.lookup (pyMin (fun y => |y - year|) z0
          (rest2.map Prod.fst)) ((z0, r0) :: rest2)).getD 0) *
          (1.02 : ℚ) ^ (year - pyMin (fun y => |y - year|) z0
          (rest2.map Prod.fst)) := by
        rw [hydshape] at hmdmem
        refine extrap_price_pos hnm hmdmem ?_ year
        simp only [List.map_cons]
        exact pyMin_mem (fun y => |y - year|) z0 (rest2.map Prod.fst)
      have hT : msrpTruthy (some (((List.lookup (pyMin (fun y => |y - year|) z0
          (rest2.map Prod.fst)) ((z0, r0) :: rest2)).getD 0) *
          (1.02 : ℚ) ^ (year - pyMin (fun y => |y - year|) z0
          (rest2.map Prod.fst)))) = true := by
        simp only [msrpTruthy, bne_iff_ne, ne_eq, decide_eq_true_eq]
        exact ne_of_gt hvpos
      have hextag : strIn "extrapolated"
          ("msrp_database_fuzzy_" ++ n ++ "_extrapolated") = true :=
        strIn_append_right _ (by decide)
      simp only [estimate_price, hfm, hT, eq_self_iff_true, if_true, hextag,
        pyRoundTo2_065]
      refine ⟨_, rfl, Or.inr rfl, find_msrp_tag_ne_category hfm, Or.inr rfl, ?_⟩
      intro p2 hp2
      cases hp2
  · -- exact year inside the fuzzy table
    have hfm : find_msrp make (some "") year =
        .ok (some p, "msrp_database_fuzzy_" ++ n) := by
      simp only [find_msrp, hmd, List.lookup_nil, hfind, hyk]
    have hppos : 0 < p :=
      db_prices_pos _ hnm _ hmdmem (year, p) (lookup_mem hyk)
    have hT : msrpTruthy (some p) = true := by
      simp only [msrpTruthy, bne_iff_ne, ne_eq, decide_eq_true_eq]
      exact ne_of_gt hppos
    simp only [estimate_price, hfm, hT, eq_self_iff_true, if_true,
      hfacts.1, Bool.false_eq_true, if_false, hfzin, pyRoundTo2_055]
    refine ⟨_, rfl, Or.inl rfl, find_msrp_tag_ne_category hfm, Or.inl rfl, ?_⟩
    intro p2 hp2
    obtain rfl := Option.some.inj hp2
    exact ⟨rfl, rfl⟩

theorem C10_witness :
    ∃ e, estimate_price 2024 (some "Tesla") (some "") 2021 none (some "good")
        none = .ok e ∧
      (e.source = "msrp_database_fuzzy_" ++ "Model 3" ∨
        e.source = "msrp_database_fuzzy_" ++ "Model 3" ++ "_extrapolated") ∧
      e.source ≠ "category_estimate" ∧
      (e.confidence = 0.55 ∨ e.confidence = 0.65) ∧
      (∀ p, List.lookup (2021 : ℤ) ([(2024, (38990 : ℚ)), (2023, 40240),
          (2022, 46990), (2021, 39990), (2020, 37990), (2019, 38990),
          (2018, 35000)] : YearTable) = some p →
        e.msrp = pyRoundTo 0 p ∧ e.source = "msrp_database_fuzzy_" ++ "Model 3") :=
  C10_empty_model_fuzzy 2024 (some "Tesla") 2021 none "good" none "Model 3"
    [(2024, 38990), (2023, 40240), (2022, 46990), (2021, 39990), (2020, 37990),
      (2019, 38990), (2018, 35000)]
    [("Model Y", [(2024, 44990), (2023, 47490), (2022, 62990), (2021, 53990),
      (2020, 49990)])]
    rfl
